import Mathlib

/-!
# BomberQuiz API — verification of the user/auth pipeline

Shallow embedding of the TypeScript sources of `bomberquiz-api`:
the in-memory user repository, the avatar-data sanitizer and validator,
the update-avatar service, the authentication service, and the auth
middleware, together with the application-error taxonomy they throw.

JavaScript strings that are *data* (ids, emails, URLs, passwords) are
modelled as lists of Unicode code points (`JStr`), so that the library
functions `trim`/`toLowerCase` used by the sanitizer can be embedded
character by character.  Strings that only ever appear as *messages*
are modelled as Lean `String`s.
-/

namespace BomberQuiz

/-- A JavaScript string, as its list of Unicode code points. -/
abbrev JStr := List Nat

/-- Is the code point `c` white space in the sense of
`String.prototype.trim` (tab, LF, VT, FF, CR, space, NBSP, LS, PS, BOM)? -/
def isWsp (c : Nat) : Bool :=
  c = 9 || c = 10 || c = 11 || c = 12 || c = 13 || c = 32 ||
  c = 160 || c = 8232 || c = 8233 || c = 65279

/-- One character of `String.prototype.toLowerCase` (ASCII range:
`A`–`Z`, code points 65–90, map to 97–122; everything else is fixed). -/
def lowerChar (c : Nat) : Nat := if 65 ≤ c ∧ c ≤ 90 then c + 32 else c

/-- Embedding of `s.trim()`: drop white space at both ends. -/
def jsTrim (s : JStr) : JStr := (s.dropWhile isWsp).rdropWhile isWsp

/-- Embedding of `s.toLowerCase()`. -/
def jsToLower (s : JStr) : JStr := s.map lowerChar

/-- Convert a Lean string literal to its code-point list, for writing
concrete `JStr` values. -/
def strToJStr (s : String) : JStr := s.data.map Char.toNat

/-! ## Avatar-data sanitizer (`UserAvatarDataSanitizer`, data layer) -/

/-- The transient shape `UserAvatarData { id, avatarUrl }`. -/
structure UserAvatarData where
  id : JStr
  avatarUrl : JStr
deriving DecidableEq, Repr

/-- `UserAvatarDataSanitizer.sanitizeId`: `if (!id) return ""; return id.trim()`.
For a (typed) string the only falsy value is the empty string. -/
def sanitizeId (id : JStr) : JStr :=
  if id = [] then [] else jsTrim id

/-- `UserAvatarDataSanitizer.sanitizeAvatarUrl`:
`if (!avatarUrl) return ""; return avatarUrl.trim().toLowerCase()`. -/
def sanitizeAvatarUrl (avatarUrl : JStr) : JStr :=
  if avatarUrl = [] then [] else jsToLower (jsTrim avatarUrl)

/-- `UserAvatarDataSanitizer.sanitize` on a (typed) `UserAvatarData`:
spreads the input and overwrites `id` and `avatarUrl` with their
normalized forms. -/
def sanitizeAvatarData (d : UserAvatarData) : UserAvatarData :=
  { d with id := sanitizeId d.id, avatarUrl := sanitizeAvatarUrl d.avatarUrl }

/-! ### Auxiliary lemmas on `trim` and `toLowerCase` -/

/-- A list fixed by `dropWhile p` has no head satisfying `p`. -/
theorem head_not_of_dropWhile_eq_self (p : Nat → Bool) (l : List Nat)
    (h : l.dropWhile p = l) : ∀ c, l.head? = some c → p c = false := by
  intro c hc
  cases l with
  | nil => simp at hc
  | cons d ds =>
    simp only [List.head?_cons, Option.some.injEq] at hc
    subst hc
    by_cases hp : p d
    · rw [List.dropWhile_cons_of_pos hp] at h
      have hsfx : ds.dropWhile p <:+ ds := List.dropWhile_suffix p
      have hlen : (ds.dropWhile p).length ≤ ds.length := hsfx.length_le
      rw [h] at hlen
      simp at hlen
    · simpa using hp

/-- A list with no head satisfying `p` is fixed by `dropWhile p`. -/
theorem dropWhile_eq_self_of_head_not (p : Nat → Bool) (l : List Nat)
    (h : ∀ c, l.head? = some c → p c = false) : l.dropWhile p = l := by
  cases l with
  | nil => rfl
  | cons d ds =>
    have hd := h d (by simp)
    rw [List.dropWhile_cons_of_neg (by simp [hd])]

/-- Being fixed by `dropWhile p` is inherited by prefixes. -/
theorem dropWhile_eq_self_of_prefix (p : Nat → Bool) (l₁ l₂ : List Nat)
    (h : l₁ <+: l₂) (h₂ : l₂.dropWhile p = l₂) : l₁.dropWhile p = l₁ := by
  apply dropWhile_eq_self_of_head_not
  intro c hc
  cases l₁ with
  | nil => simp at hc
  | cons d ds =>
    simp only [List.head?_cons, Option.some.injEq] at hc
    subst hc
    obtain ⟨t, ht⟩ := h
    apply head_not_of_dropWhile_eq_self p l₂ h₂
    rw [← ht]
    simp

/-- A left-clean list stays left-clean after trimming on the right. -/
theorem dropWhile_rdropWhile_self (p : Nat → Bool) (l : List Nat)
    (hl : l.dropWhile p = l) :
    (l.rdropWhile p).dropWhile p = l.rdropWhile p :=
  dropWhile_eq_self_of_prefix p _ l (List.rdropWhile_prefix p l) hl

/-- `trim` is idempotent. -/
theorem jsTrim_idem (s : JStr) : jsTrim (jsTrim s) = jsTrim s := by
  unfold jsTrim
  rw [dropWhile_rdropWhile_self isWsp (s.dropWhile isWsp)
    (List.dropWhile_idempotent isWsp s)]
  exact List.rdropWhile_idempotent isWsp (s.dropWhile isWsp)

theorem dropWhile_map (p : Nat → Bool) (f : Nat → Nat) (l : List Nat)
    (hpf : ∀ c, p (f c) = p c) :
    (l.map f).dropWhile p = (l.dropWhile p).map f := by
  induction l with
  | nil => rfl
  | cons c t ih =>
    by_cases h : p c
    · simp [List.dropWhile, h, hpf, ih]
    · simp [List.dropWhile, h, hpf]

/-- Lower-casing does not change whether a character is white space. -/
theorem isWsp_lowerChar (c : Nat) : isWsp (lowerChar c) = isWsp c := by
  unfold lowerChar
  by_cases h : 65 ≤ c ∧ c ≤ 90
  · rw [if_pos h]
    have h1 : isWsp (c + 32) = false := by simp [isWsp]; omega
    have h2 : isWsp c = false := by simp [isWsp]; omega
    rw [h1, h2]
  · rw [if_neg h]

/-- Lower-casing a character twice is the same as once. -/
theorem lowerChar_idem (c : Nat) : lowerChar (lowerChar c) = lowerChar c := by
  unfold lowerChar
  by_cases h : 65 ≤ c ∧ c ≤ 90
  · rw [if_pos h]
    have h2 : ¬(65 ≤ c + 32 ∧ c + 32 ≤ 90) := by omega
    rw [if_neg h2]
  · rw [if_neg h, if_neg h]

theorem jsToLower_idem (s : JStr) : jsToLower (jsToLower s) = jsToLower s := by
  unfold jsToLower
  rw [List.map_map]
  apply List.map_congr_left
  intro c _
  exact lowerChar_idem c

theorem jsTrim_jsToLower (s : JStr) :
    jsTrim (jsToLower s) = jsToLower (jsTrim s) := by
  unfold jsTrim jsToLower List.rdropWhile
  rw [dropWhile_map isWsp lowerChar s isWsp_lowerChar]
  rw [← List.map_reverse]
  rw [dropWhile_map isWsp lowerChar _ isWsp_lowerChar]
  rw [← List.map_reverse]

/-- `sanitizeId` is idempotent. -/
theorem sanitizeId_idem (id : JStr) :
    sanitizeId (sanitizeId id) = sanitizeId id := by
  unfold sanitizeId
  by_cases h : id = []
  · simp [h]
  · simp only [h, if_false]
    by_cases h2 : jsTrim id = []
    · simp [h2]
    · simp [h2, jsTrim_idem]

/-- `sanitizeAvatarUrl` is idempotent. -/
theorem sanitizeAvatarUrl_idem (u : JStr) :
    sanitizeAvatarUrl (sanitizeAvatarUrl u) = sanitizeAvatarUrl u := by
  unfold sanitizeAvatarUrl
  by_cases h : u = []
  · simp [h]
  · simp only [h, if_false]
    by_cases h2 : jsToLower (jsTrim u) = []
    · simp [h2]
    · simp only [h2, if_false]
      rw [jsTrim_jsToLower, jsToLower_idem, jsTrim_idem]

/-- C8: the avatar-data sanitizer is idempotent — for every
`UserAvatarData` `x`, `sanitize (sanitize x) = sanitize x` (trimming and
lower-casing applied twice give the same result as applied once). -/
theorem c8_sanitize_idempotent (x : UserAvatarData) :
    sanitizeAvatarData (sanitizeAvatarData x) = sanitizeAvatarData x := by
  unfold sanitizeAvatarData
  simp [sanitizeId_idem, sanitizeAvatarUrl_idem]

/-! ## Dynamic (untyped) view of the sanitizer

`sanitize` is typed against `UserAvatarData`, but the spec talks about
arbitrary runtime inputs, so we also embed it over a model of dynamic
JavaScript values.  `NaN` is not modelled (numbers are integers). -/

/-- A dynamic JavaScript value. -/
inductive JSVal where
  | vNull
  | vUndefined
  | vStr (s : JStr)
  | vNum (n : Int)
  | vBool (b : Bool)
  | vObj (fields : List (String × JSVal))
deriving Repr

/-- JavaScript truthiness. -/
def truthy : JSVal → Bool
  | .vNull => false
  | .vUndefined => false
  | .vStr s => s ≠ []
  | .vNum n => n ≠ 0
  | .vBool b => b
  | .vObj _ => true

/-- Property read `v[k]` for the non-index keys the sanitizer uses
(`"id"`, `"avatarUrl"`): objects look the key up, every other value
yields `undefined`.  (`null`/`undefined` would throw, but the sanitizer
only reads properties after its truthiness guard.) -/
def getProp (v : JSVal) (k : String) : JSVal :=
  match v with
  | .vObj fields =>
    match fields.find? (fun kv => kv.1 = k) with
    | some kv => kv.2
    | none => .vUndefined
  | _ => .vUndefined

/-- The own enumerable properties contributed by an object-literal
spread `{...v}`: an object's fields, a string's index properties,
nothing for the primitives. -/
def spreadFields : JSVal → List (String × JSVal)
  | .vObj fields => fields
  | .vStr s => (s.enum).map (fun ic => (toString ic.1, .vStr [ic.2]))
  | _ => []

/-- Write `fields[k] = v`: replace in place if the key exists,
append otherwise (JavaScript property-order semantics). -/
def setProp : List (String × JSVal) → String → JSVal → List (String × JSVal)
  | [], k, v => [(k, v)]
  | (k', v') :: rest, k, v =>
    if k' = k then (k, v) :: rest else (k', v') :: setProp rest k v

/-- Dynamic `sanitizeId`: `if (!id) return ""; return id.trim()`.
(A truthy non-string field would throw a `TypeError` on `.trim()` in
JavaScript; no input considered here produces one.) -/
def sanitizeIdDyn (v : JSVal) : JStr :=
  if truthy v = false then []
  else match v with
    | .vStr s => jsTrim s
    | _ => []

/-- Dynamic `sanitizeAvatarUrl`. -/
def sanitizeAvatarUrlDyn (v : JSVal) : JStr :=
  if truthy v = false then []
  else match v with
    | .vStr s => jsToLower (jsTrim s)
    | _ => []

/-- Dynamic `UserAvatarDataSanitizer.sanitize`:
`if (!userAvatarData) return {}` and otherwise the object literal
`{ ...userAvatarData, id: sanitizeId(...), avatarUrl: sanitizeAvatarUrl(...) }`. -/
def sanitizeDyn (v : JSVal) : JSVal :=
  if truthy v = false then .vObj []
  else .vObj (setProp
    (setProp (spreadFields v) "id" (.vStr (sanitizeIdDyn (getProp v "id"))))
    "avatarUrl" (.vStr (sanitizeAvatarUrlDyn (getProp v "avatarUrl"))))

/-- C4 counterexample: the number `5` is not an object, yet
`sanitize(5)` is `{id: "", avatarUrl: ""}`, not the empty object. -/
theorem c4_counterexample_nonobject_not_empty :
    sanitizeDyn (JSVal.vNum 5)
      = JSVal.vObj [("id", .vStr []), ("avatarUrl", .vStr [])] ∧
    sanitizeDyn (JSVal.vNum 5) ≠ JSVal.vObj [] := by
  constructor
  · rfl
  · intro h
    rw [show sanitizeDyn (JSVal.vNum 5)
      = JSVal.vObj [("id", .vStr []), ("avatarUrl", .vStr [])] from rfl] at h
    simp at h

/-- C4 (amended): `sanitize` never throws (it is total) and returns the
empty object exactly on falsy inputs — in particular on `null` and
`undefined`; a truthy non-object primitive instead yields an object
carrying empty-string `id` and `avatarUrl`. -/
theorem c4_sanitize_falsy_empty (v : JSVal) (h : truthy v = false) :
    sanitizeDyn v = JSVal.vObj [] ∧
    (∀ n : Int, n ≠ 0 → sanitizeDyn (JSVal.vNum n)
      = JSVal.vObj [("id", .vStr []), ("avatarUrl", .vStr [])]) := by
  constructor
  · unfold sanitizeDyn
    rw [h]
    rfl
  · intro n hn
    unfold sanitizeDyn
    have ht : truthy (JSVal.vNum n) = true := by
      simp [truthy, hn]
    rw [ht]
    rfl

/-- C4 witness: evaluated at `null`. -/
theorem c4_sanitize_falsy_empty_witness :
    sanitizeDyn JSVal.vNull = JSVal.vObj [] :=
  (c4_sanitize_falsy_empty JSVal.vNull (by rfl)).1

/-! ## Application errors (`domain/errors`)

`InvalidCredentialsError` and `UnregisteredParamError` are embedded from
their sources.  The base class and the remaining constructors are not
under `src/`; they are modelled from the spec (§7) and from the message
strings asserted by the repository's own tests. -/

/-- `charAt(0).toUpperCase()` for one character (ASCII range). -/
def upperCharC (c : Char) : Char :=
  if 97 ≤ c.toNat ∧ c.toNat ≤ 122 then Char.ofNat (c.toNat - 32) else c

/-- `param.charAt(0).toUpperCase() + param.slice(1)` (on the empty
string both pieces are empty). -/
def jsCapitalize (s : String) : String :=
  match s.data with
  | [] => ""
  | c :: rest => String.mk (upperCharC c :: rest)

/-- Modelled from the spec: the base `ApplicationError` (not under
`src/`) is a typed error carrying a constructor name, a message and an
HTTP status code. -/
structure AppError where
  name : String
  message : String
  statusCode : Nat
deriving DecidableEq, Repr

/-- Modelled from the spec: `MissingParamError` (400) — its class file is
not under `src/`; the message shape is the one the auth-middleware test
asserts: `"Parâmetro obrigatório não informado: <param>"`. -/
def missingParamError (param : String) : AppError :=
  ⟨"MissingParamError", "Parâmetro obrigatório não informado: " ++ param, 400⟩

/-- Modelled from the spec: `InvalidParamError` (400) — its class file is
not under `src/`; the message shape is the one the auth-middleware test
asserts: `"Parâmetro inválido: <Param>. <Reason>."`. -/
def invalidParamError (param reason : String) : AppError :=
  ⟨"InvalidParamError",
    "Parâmetro inválido: " ++ jsCapitalize param ++ ". "
      ++ jsCapitalize reason ++ ".", 400⟩

/-- Modelled from the spec: `ServerError` (500) wrapping an unexpected
error's message. -/
def serverError (msg : String) : AppError :=
  ⟨"ServerError", msg, 500⟩

/-- `InvalidCredentialsError` (from source): 401, message
`"Credenciais inválidas: Email/Senha."`, with an optional capitalized
reason appended when the reason is truthy and does not trim to `""`. -/
def invalidCredentialsError (reason : Option String) : AppError :=
  match reason with
  | some r =>
    if r ≠ "" ∧ r.trim ≠ "" then
      ⟨"InvalidCredentialsError",
        "Credenciais inválidas: Email/Senha. " ++ jsCapitalize r ++ ".", 401⟩
    else
      ⟨"InvalidCredentialsError", "Credenciais inválidas: Email/Senha.", 401⟩
  | none =>
    ⟨"InvalidCredentialsError", "Credenciais inválidas: Email/Senha.", 401⟩

/-- `UnregisteredParamError` (from source): 404, message
`"Não foram encontrados registros para esse(a) <Param>."`. -/
def unregisteredParamError (param : String) : AppError :=
  ⟨"UnregisteredParamError",
    "Não foram encontrados registros para esse(a) " ++ jsCapitalize param ++ ".",
    404⟩

/-! ## Domain entities (`domain/entities`) -/

/-- The user roles (spec §3: admin / collaborator / client). -/
inductive Role where
  | admin
  | collaborator
  | client
deriving DecidableEq, Repr

/-- Modelled from the spec: `USER_DEFAULT_ROLE` — the entities file is
not under `src/`; the spec fixes the default role to client. -/
def USER_DEFAULT_ROLE : Role := Role.client

/-- Modelled from the spec: `USER_DEFAULT_AVATAR_URL` — the entities
file is not under `src/`; the spec only says it is a fixed default path
string, so a representative constant is used (the claims compare against
this constant, never against its spelling). -/
def USER_DEFAULT_AVATAR_URL : JStr := strToJStr "/images/default-avatar.png"

/-- The persisted `User` record.  `Date`s are modelled as numeric
timestamps. -/
structure User where
  id : JStr
  name : JStr
  email : JStr
  phone : JStr
  birthdate : Nat
  avatarUrl : JStr
  role : Role
  password : JStr
  createdAt : Nat
  updatedAt : Nat
deriving DecidableEq, Repr

/-- `UserCreateData`: the caller-supplied part of a user. -/
structure UserCreateData where
  name : JStr
  email : JStr
  phone : JStr
  birthdate : Nat
  password : JStr
deriving DecidableEq, Repr

/-- `UserMapped`: the `User` view with the password omitted. -/
structure UserMapped where
  id : JStr
  name : JStr
  email : JStr
  phone : JStr
  birthdate : Nat
  avatarUrl : JStr
  role : Role
  createdAt : Nat
  updatedAt : Nat
deriving DecidableEq, Repr

/-- A serialized field value, for talking about the keys a record
exposes when returned to a caller. -/
inductive FieldVal where
  | str (v : JStr)
  | nat (v : Nat)
  | role (v : Role)
deriving DecidableEq, Repr

/-- The own enumerable properties of a stored `User` object. -/
def User.toPairs (u : User) : List (String × FieldVal) :=
  [("name", .str u.name), ("email", .str u.email), ("phone", .str u.phone),
   ("birthdate", .nat u.birthdate), ("password", .str u.password),
   ("id", .str u.id), ("avatarUrl", .str u.avatarUrl), ("role", .role u.role),
   ("createdAt", .nat u.createdAt), ("updatedAt", .nat u.updatedAt)]

/-- The own enumerable properties of a `UserMapped` object, i.e. of the
rest-spread `const { password, ...userWithoutPassword } = user`. -/
def UserMapped.toPairs (m : UserMapped) : List (String × FieldVal) :=
  [("name", .str m.name), ("email", .str m.email), ("phone", .str m.phone),
   ("birthdate", .nat m.birthdate),
   ("id", .str m.id), ("avatarUrl", .str m.avatarUrl), ("role", .role m.role),
   ("createdAt", .nat m.createdAt), ("updatedAt", .nat m.updatedAt)]

/-! ## In-memory user repository (`InMemoryUserRepository`)

The repository's state is its `users` array.  `crypto.randomUUID()` and
`new Date()` are nondeterministic effects, embedded as extra arguments. -/

/-- `mapUser`: `const { password, ...userWithoutPassword } = user`. -/
def mapUser (u : User) : UserMapped :=
  ⟨u.id, u.name, u.email, u.phone, u.birthdate, u.avatarUrl, u.role,
    u.createdAt, u.updatedAt⟩

/-- `create`: pushes the new record (spread of `data` plus generated id,
default avatar, default role and the two timestamps) onto `users`.
The TypeScript method returns `Promise<void>`; here the new state is the
whole result — no created record is handed back. -/
def create (data : UserCreateData) (newId : JStr) (createdAt updatedAt : Nat)
    (users : List User) : List User :=
  users ++ [{ name := data.name, email := data.email, phone := data.phone,
              birthdate := data.birthdate, password := data.password,
              id := newId, avatarUrl := USER_DEFAULT_AVATAR_URL,
              role := USER_DEFAULT_ROLE,
              createdAt := createdAt, updatedAt := updatedAt }]

/-- `findByEmail`: `users.find(u => u.email === email) || null` — exact,
case-sensitive match returning the full record. -/
def findByEmail (users : List User) (email : JStr) : Option User :=
  users.find? (fun u => u.email = email)

/-- `findById`: looks the user up by id and returns the mapped
(password-stripped) view, or `null`. -/
def findById (users : List User) (id : JStr) : Option UserMapped :=
  (users.find? (fun u => u.id = id)).map mapUser

/-- `list`: all users, mapped. -/
def listUsers (users : List User) : List UserMapped :=
  users.map mapUser

/-- `users.findIndex(...)` — the matched index, or `-1`. -/
def jsFindIndex (p : User → Bool) (users : List User) : Int :=
  match users.findIdx? p with
  | some i => (i : Int)
  | none => -1

/-- The value stored by the stray write `this.users[-1] = {...}`:
`this.users[-1]` reads `undefined`, so the spread contributes nothing
and the object holds only the `avatarUrl`. -/
structure StrayEntry where
  avatarUrl : JStr
deriving DecidableEq, Repr

/-- The `users` array after `updateAvatar`.  A JavaScript array accepts
the assignment `users[-1] = v` by attaching a non-index own property
keyed `-1` — it is not an element and no method iterating the elements
sees it. -/
structure StoreAfterUpdate where
  users : List User
  strayProp : Option StrayEntry
deriving DecidableEq, Repr

/-- `updateAvatar`: finds the index of the matching user and assigns
`users[idx] = { ...users[idx], avatarUrl }` with no guard on a missing
match.  For a valid index this replaces the element; for `-1` the
assignment creates the stray `-1` property instead. -/
def updateAvatar (d : UserAvatarData) (users : List User) : StoreAfterUpdate :=
  let i := jsFindIndex (fun u => u.id = d.id) users
  if h : 0 ≤ i ∧ i.toNat < users.length then
    { users := users.set i.toNat
        { users.get ⟨i.toNat, h.2⟩ with avatarUrl := d.avatarUrl },
      strayProp := none }
  else
    { users := users, strayProp := some ⟨d.avatarUrl⟩ }

/-! ### Repository theorems -/

/-- C1: every object the repository returns through `findById` or
`list` exposes no `password` key — `mapUser` strips the password from
every outward-facing user. -/
theorem c1_no_password_key (users : List User) (id : JStr) :
    (∀ m, findById users id = some m →
      "password" ∉ m.toPairs.map Prod.fst) ∧
    (∀ m, m ∈ listUsers users → "password" ∉ m.toPairs.map Prod.fst) := by
  constructor
  · intro m _
    simp [UserMapped.toPairs]
  · intro m _
    simp [UserMapped.toPairs]

/-- A demonstration user for witnesses. -/
def demoUser : User :=
  { id := [49], name := [97], email := [101, 64, 101], phone := [57],
    birthdate := 5, avatarUrl := [97, 118], role := .client,
    password := [112, 119], createdAt := 1, updatedAt := 2 }

/-- C1 witness: evaluated on a one-user store. -/
theorem c1_no_password_key_witness :
    findById [demoUser] [49] = some (mapUser demoUser) ∧
    "password" ∉ (mapUser demoUser).toPairs.map Prod.fst := by
  refine ⟨by decide, ?_⟩
  exact (c1_no_password_key [demoUser] [49]).1 (mapUser demoUser) (by decide)

/-- C7: `create` (which yields only the new state, no record) stores a
user made of the input data plus a fresh id, the default avatar URL,
the default role and the two timestamps; when no stored user already
has that email, `findByEmail` then returns exactly that full record —
password included and equal to the (hashed) password handed to
`create`. -/
theorem c7_create_then_findByEmail (data : UserCreateData) (newId : JStr)
    (tc tu : Nat) (users : List User)
    (hfresh : ∀ u ∈ users, u.email ≠ data.email) :
    findByEmail (create data newId tc tu users) data.email
      = some { name := data.name, email := data.email, phone := data.phone,
               birthdate := data.birthdate, password := data.password,
               id := newId, avatarUrl := USER_DEFAULT_AVATAR_URL,
               role := USER_DEFAULT_ROLE, createdAt := tc, updatedAt := tu } := by
  unfold findByEmail create
  rw [List.find?_append]
  have hnone : users.find? (fun u => u.email = data.email) = none := by
    rw [List.find?_eq_none]
    intro u hu
    simpa using hfresh u hu
  rw [hnone]
  simp

/-- C7 witness: creating into an empty store and finding by email. -/
theorem c7_create_then_findByEmail_witness :
    findByEmail (create ⟨[97], [101, 64], [57], 3, [112]⟩ [50] 7 8 []) [101, 64]
      = some { name := [97], email := [101, 64], phone := [57],
               birthdate := 3, password := [112], id := [50],
               avatarUrl := USER_DEFAULT_AVATAR_URL,
               role := USER_DEFAULT_ROLE, createdAt := 7, updatedAt := 8 } :=
  c7_create_then_findByEmail ⟨[97], [101, 64], [57], 3, [112]⟩ [50] 7 8 []
    (by intro u hu; simp at hu)

/-- C9: when no stored user matches the id, `updateAvatar` does not
throw, the lookup index is `-1`, and the unguarded write corrupts the
store: the result is not the untouched store — it gains the stray
property keyed `-1` holding only the `avatarUrl`, while the element
array is unchanged. -/
theorem c9_updateAvatar_missing_id_corrupts (users : List User)
    (d : UserAvatarData) (hmiss : ∀ u ∈ users, u.id ≠ d.id) :
    jsFindIndex (fun u => u.id = d.id) users = -1 ∧
    updateAvatar d users = ⟨users, some ⟨d.avatarUrl⟩⟩ ∧
    updateAvatar d users ≠ ⟨users, none⟩ := by
  have hidx : jsFindIndex (fun u => u.id = d.id) users = -1 := by
    unfold jsFindIndex
    have : users.findIdx? (fun u => u.id = d.id) = none := by
      rw [List.findIdx?_eq_none_iff]
      intro u hu
      simpa using hmiss u hu
    rw [this]
  have hneg : ¬(0 ≤ (-1 : Int) ∧ (-1 : Int).toNat < users.length) := by
    intro h
    exact absurd h.1 (by norm_num)
  have hres : updateAvatar d users = ⟨users, some ⟨d.avatarUrl⟩⟩ := by
    unfold updateAvatar
    simp only [hidx]
    rw [dif_neg hneg]
  refine ⟨hidx, hres, ?_⟩
  rw [hres]
  simp

/-- C9 witness: a store holding one user and a request for an absent id. -/
theorem c9_updateAvatar_missing_id_corrupts_witness :
    updateAvatar ⟨[50], [117]⟩ [demoUser] = ⟨[demoUser], some ⟨[117]⟩⟩ :=
  (c9_updateAvatar_missing_id_corrupts [demoUser] ⟨[50], [117]⟩
    (by intro u hu; simp at hu; rw [hu]; decide)).2.1

/-- C10: when the id matches the stored user at (first matching) index
`i`, `updateAvatar` rewrites only that element's `avatarUrl`: no stray
property appears, the length is unchanged, every other element is
unchanged, and the matched element keeps all its other fields —
including `updatedAt`, which is not refreshed. -/
theorem c10_updateAvatar_frame (users : List User) (d : UserAvatarData)
    (i : Nat) (hi : i < users.length)
    (hfirst : ∀ j (hj : j < users.length), j < i →
      (users.get ⟨j, hj⟩).id ≠ d.id)
    (hmatch : (users.get ⟨i, hi⟩).id = d.id) :
    (updateAvatar d users).strayProp = none ∧
    (updateAvatar d users).users.length = users.length ∧
    (updateAvatar d users).users
      = users.set i { users.get ⟨i, hi⟩ with avatarUrl := d.avatarUrl } ∧
    (updateAvatar d users).users[i]?
      = some { users.get ⟨i, hi⟩ with avatarUrl := d.avatarUrl } ∧
    (∀ j, j ≠ i → (updateAvatar d users).users[j]? = users[j]?) := by
  have hidx : jsFindIndex (fun u => u.id = d.id) users = (i : Int) := by
    unfold jsFindIndex
    have : users.findIdx? (fun u => u.id = d.id) = some i := by
      rw [List.findIdx?_eq_some_iff_getElem]
      refine ⟨hi, by simpa using hmatch, ?_⟩
      intro j hj
      simpa using hfirst j (hj.trans hi) hj
    rw [this]
  have hpos : 0 ≤ (i : Int) ∧ ((i : Int)).toNat < users.length := by
    constructor
    · exact Int.ofNat_nonneg i
    · simpa using hi
  have hres : updateAvatar d users
      = { users := users.set i
            { users.get ⟨i, hi⟩ with avatarUrl := d.avatarUrl },
          strayProp := none } := by
    unfold updateAvatar
    simp only [hidx]
    rw [dif_pos hpos]
    simp
  refine ⟨by rw [hres], by rw [hres]; simp, by rw [hres], ?_, ?_⟩
  · rw [hres]
    exact List.getElem?_set_self hi
  · intro j hne
    rw [hres]
    exact List.getElem?_set_ne (by exact fun h => hne h.symm)

/-- C10 witness: a two-user store, updating the second user's avatar. -/
theorem c10_updateAvatar_frame_witness :
    (updateAvatar ⟨[49], [110, 117]⟩ [{ demoUser with id := [48] }, demoUser]).users
      = [{ demoUser with id := [48] }, { demoUser with avatarUrl := [110, 117] }]
      ∧ (updateAvatar ⟨[49], [110, 117]⟩
          [{ demoUser with id := [48] }, demoUser]).strayProp = none := by
  have h := c10_updateAvatar_frame [{ demoUser with id := [48] }, demoUser]
    ⟨[49], [110, 117]⟩ 1 (by decide)
    (by
      intro j hj hlt
      have hj0 : j = 0 := by omega
      subst hj0
      change ([48] : List Nat) ≠ [49]
      decide)
    (by decide)
  refine ⟨?_, h.1⟩
  rw [h.2.2.1]
  decide

/-! ## Authentication service (`AuthenticateService.authenticate`)

The hash provider's `compare` and the JWT provider's `sign` are external
collaborators, embedded as function parameters.  The service's
`try/catch` only logs and rethrows, so it does not change the result. -/

/-- `AuthData { email, password }`. -/
structure AuthData where
  email : JStr
  password : JStr
deriving DecidableEq, Repr

/-- The payload the service signs: `{ userId: user.id, role: user.role }`. -/
structure SvcJwtPayload where
  userId : JStr
  role : Role
deriving DecidableEq, Repr

/-- `AuthResult { user, accessToken }` — the user without its password. -/
structure AuthResult where
  user : UserMapped
  accessToken : JStr
deriving DecidableEq, Repr

/-- `AuthenticateService.authenticate`: find by email (absent ⇒ throw
`InvalidCredentialsError()`), compare the password against the stored
hash (mismatch ⇒ the same error), sign the JWT, strip the password and
return `{ user, accessToken }`. -/
def authenticate (users : List User) (compare : JStr → JStr → Bool)
    (sign : SvcJwtPayload → JStr) (data : AuthData) :
    Except AppError AuthResult :=
  match findByEmail users data.email with
  | none => .error (invalidCredentialsError none)
  | some user =>
    if compare data.password user.password then
      .ok ⟨mapUser user, sign ⟨user.id, user.role⟩⟩
    else
      .error (invalidCredentialsError none)

/-- C2: with an unregistered email, or with a stored user whose hash
does not match, `authenticate` throws the 401 error with message exactly
`"Credenciais inválidas: Email/Senha."` — and the two failure cases
produce the identical error value (same type, message and status), so
they are indistinguishable. -/
theorem c2_authenticate_invalid_credentials (users : List User)
    (compare : JStr → JStr → Bool) (sign : SvcJwtPayload → JStr)
    (data : AuthData) :
    (findByEmail users data.email = none →
      authenticate users compare sign data
        = .error (invalidCredentialsError none)) ∧
    (∀ u, findByEmail users data.email = some u →
      compare data.password u.password = false →
      authenticate users compare sign data
        = .error (invalidCredentialsError none)) ∧
    (invalidCredentialsError none).message
      = "Credenciais inválidas: Email/Senha." ∧
    (invalidCredentialsError none).statusCode = 401 ∧
    (invalidCredentialsError none).name = "InvalidCredentialsError" := by
  refine ⟨?_, ?_, rfl, rfl, rfl⟩
  · intro h
    simp [authenticate, h]
  · intro u hu hcmp
    simp [authenticate, hu, hcmp]

/-- C2 witness: both failure paths on a one-user store. -/
theorem c2_authenticate_invalid_credentials_witness :
    authenticate [demoUser] (fun a b => a = b) (fun p => p.userId)
        ⟨[120], [112]⟩ = .error (invalidCredentialsError none) ∧
    authenticate [demoUser] (fun _ _ => false) (fun p => p.userId)
        ⟨[101, 64, 101], [112]⟩ = .error (invalidCredentialsError none) := by
  constructor
  · exact (c2_authenticate_invalid_credentials [demoUser]
      (fun a b => a = b) (fun p => p.userId) ⟨[120], [112]⟩).1 (by decide)
  · exact (c2_authenticate_invalid_credentials [demoUser]
      (fun _ _ => false) (fun p => p.userId) ⟨[101, 64, 101], [112]⟩).2.1
      demoUser (by decide) rfl

/-! ## Avatar-data composite validator (`UserAvatarDataValidator`) -/

/-- `UserAvatarDataValidator.validate`: presence of `id` (label `"Id"`),
then presence of `avatarUrl` (label `"avatar"`), then the id-format
validator, then the repository existence lookup; the first failure
throws.  The id validator and the repository are injected dependencies,
embedded as function parameters. -/
def validateAvatarData (idValidate : JStr → Except AppError Unit)
    (findByIdRepo : JStr → Option UserMapped) (d : UserAvatarData) :
    Except AppError Unit :=
  if d.id = [] then .error (missingParamError "Id")
  else if d.avatarUrl = [] then .error (missingParamError "avatar")
  else match idValidate d.id with
    | .error e => .error e
    | .ok _ =>
      match findByIdRepo d.id with
      | none => .error (unregisteredParamError "id")
      | some _ => .ok ()

/-- C5: the composite validator checks in the fixed order
id-presence, avatarUrl-presence, id-format, id-existence, and the first
failing check throws immediately: a missing field yields the
`MissingParam` error naming it, with the result independent of the id
validator and of the repository; a malformed id yields the id
validator's error, with the result independent of the repository. -/
theorem c5_validator_fail_fast_order
    (iv iv2 : JStr → Except AppError Unit)
    (f f2 : JStr → Option UserMapped) (d : UserAvatarData) :
    (d.id = [] →
      validateAvatarData iv f d = .error (missingParamError "Id") ∧
      validateAvatarData iv f d = validateAvatarData iv2 f2 d) ∧
    (d.id ≠ [] → d.avatarUrl = [] →
      validateAvatarData iv f d = .error (missingParamError "avatar") ∧
      validateAvatarData iv f d = validateAvatarData iv2 f2 d) ∧
    (∀ e, d.id ≠ [] → d.avatarUrl ≠ [] → iv d.id = .error e →
      validateAvatarData iv f d = .error e ∧
      validateAvatarData iv f d = validateAvatarData iv f2 d) := by
  refine ⟨?_, ?_, ?_⟩
  · intro h
    constructor
    · simp [validateAvatarData, h]
    · simp [validateAvatarData, h]
  · intro h1 h2
    constructor
    · simp [validateAvatarData, h1, h2]
    · simp [validateAvatarData, h1, h2]
  · intro e h1 h2 hiv
    constructor
    · simp [validateAvatarData, h1, h2, hiv]
    · simp [validateAvatarData, h1, h2, hiv]

/-- C5 witness: the three fail-fast cases at concrete inputs. -/
theorem c5_validator_fail_fast_order_witness :
    validateAvatarData (fun _ => .ok ()) (fun _ => none) ⟨[], [97]⟩
      = .error (missingParamError "Id") ∧
    validateAvatarData (fun _ => .ok ()) (fun _ => none) ⟨[49], []⟩
      = .error (missingParamError "avatar") ∧
    validateAvatarData (fun _ => .error (invalidParamError "id" "formato inválido"))
        (fun _ => none) ⟨[49], [97]⟩
      = .error (invalidParamError "id" "formato inválido") := by
  refine ⟨?_, ?_, ?_⟩
  · exact ((c5_validator_fail_fast_order (fun _ => .ok ()) (fun _ => .ok ())
      (fun _ => none) (fun _ => none) ⟨[], [97]⟩).1 rfl).1
  · exact ((c5_validator_fail_fast_order (fun _ => .ok ()) (fun _ => .ok ())
      (fun _ => none) (fun _ => none) ⟨[49], []⟩).2.1 (by decide) rfl).1
  · exact ((c5_validator_fail_fast_order
      (fun _ => .error (invalidParamError "id" "formato inválido"))
      (fun _ => .ok ()) (fun _ => none) (fun _ => none) ⟨[49], [97]⟩).2.2
      (invalidParamError "id" "formato inválido")
      (by decide) (by decide) rfl).1

/-! ## Update-avatar service (`UserUpdateAvatarService.updateAvatar`) -/

/-- `UserUpdateAvatarService.updateAvatar`: sanitize, validate, then
persist through the repository; a validation error is rethrown and the
persist step is never reached.  The repository's persist operation is a
parameter over an abstract store type. -/
def userUpdateAvatarService {σ : Type}
    (idValidate : JStr → Except AppError Unit)
    (findByIdRepo : JStr → Option UserMapped)
    (persist : UserAvatarData → σ → σ) (st : σ)
    (userAvatarData : UserAvatarData) : Except AppError σ :=
  let sanitizedData := sanitizeAvatarData userAvatarData
  match validateAvatarData idValidate findByIdRepo sanitizedData with
  | .error e => .error e
  | .ok _ => .ok (persist sanitizedData st)

/-- C6: for avatar data whose (sanitized) id is present and passes the
format validator but matches no registered user, the validator — hence
the update-avatar service — throws the 404 `UnregisteredParamError`
with message exactly `"Não foram encontrados registros para esse(a)
Id."`, and the repository persist step is never reached: the result is
the same for every persist function and every starting store. -/
theorem c6_update_avatar_unregistered_id {σ : Type}
    (iv : JStr → Except AppError Unit) (f : JStr → Option UserMapped)
    (persist : UserAvatarData → σ → σ) (st : σ) (d : UserAvatarData)
    (hid : (sanitizeAvatarData d).id ≠ [])
    (hurl : (sanitizeAvatarData d).avatarUrl ≠ [])
    (hiv : iv (sanitizeAvatarData d).id = .ok ())
    (hf : f (sanitizeAvatarData d).id = none) :
    userUpdateAvatarService iv f persist st d
      = .error (unregisteredParamError "id") ∧
    (∀ persist2 : UserAvatarData → σ → σ, ∀ st2 : σ,
      userUpdateAvatarService iv f persist2 st2 d
        = .error (unregisteredParamError "id")) ∧
    (unregisteredParamError "id").message
      = "Não foram encontrados registros para esse(a) Id." ∧
    (unregisteredParamError "id").statusCode = 404 := by
  have hval : validateAvatarData iv f (sanitizeAvatarData d)
      = .error (unregisteredParamError "id") := by
    unfold validateAvatarData
    rw [if_neg hid, if_neg hurl, hiv, hf]
  refine ⟨?_, ?_, by decide, rfl⟩
  · simp [userUpdateAvatarService, hval]
  · intro persist2 st2
    simp [userUpdateAvatarService, hval]

/-- C6 witness: concrete well-formed id, empty repository. -/
theorem c6_update_avatar_unregistered_id_witness :
    userUpdateAvatarService (σ := List User) (fun _ => .ok ())
        (fun _ => none) (fun _ st => st) [] ⟨[49], [97]⟩
      = .error (unregisteredParamError "id") :=
  (c6_update_avatar_unregistered_id (σ := List User) (fun _ => .ok ())
    (fun _ => none) (fun _ st => st) [] ⟨[49], [97]⟩
    (by decide) (by decide) rfl rfl).1

/-! ## Auth middleware (`AuthMiddleware.handle`)

The HTTP helpers `ok`/`handleError` are not under `src/`; they are
modelled from the spec (§4.5/§7): controllers and middleware convert a
thrown application error into the response envelope carrying the error's
status and message, and `ok` wraps data with status 200. -/

/-- `s.split(sep)` — one separator character, JavaScript semantics
(the empty string yields `[""]`, adjacent separators yield `""`s). -/
def splitAux (sep : Char) : List Char → List Char → List String
  | [], acc => [String.mk acc.reverse]
  | c :: rest, acc =>
    if c = sep then String.mk acc.reverse :: splitAux sep rest []
    else splitAux sep rest (c :: acc)

/-- Embedding of `authHeader.split(" ")` (single-character separator). -/
def jsSplit (s : String) (sep : Char) : List String :=
  splitAux sep s.data []

/-- Boolean prefix test on character lists. -/
def isPrefixB : List Char → List Char → Bool
  | [], _ => true
  | _ :: _, [] => false
  | a :: as, b :: bs => a = b && isPrefixB as bs

/-- Boolean infix test on character lists. -/
def isInfixB : List Char → List Char → Bool
  | needle, [] => isPrefixB needle []
  | needle, c :: hs => isPrefixB needle (c :: hs) || isInfixB needle hs

/-- Does the string `hay` contain `needle` as a substring? -/
def strContains (hay needle : String) : Bool :=
  isInfixB needle.data hay.data

/-- The decoded JWT payload as the middleware consumes it. -/
structure MwPayload where
  userId : String
  role : String
deriving DecidableEq, Repr

/-- The middleware's HTTP response envelope: status, success flag,
optional error message, optional `{userId, userRole}` body data. -/
structure MwResponse where
  statusCode : Nat
  success : Bool
  errorMessage : Option String
  data : Option (String × String)
deriving DecidableEq, Repr

/-- Modelled from the spec: the shared `handleError` helper (not under
`src/`) maps a thrown application error to its declared status with the
error's message in the envelope. -/
def handleError (e : AppError) : MwResponse :=
  ⟨e.statusCode, false, some e.message, none⟩

/-- Modelled from the spec: the `ok` helper (not under `src/`) wraps the
decoded `{userId, userRole}` with status 200. -/
def okResponse (p : MwPayload) : MwResponse :=
  ⟨200, true, none, some (p.userId, p.role)⟩

/-- `AuthMiddleware.handle`: read the (possibly absent) `authorization`
header; a falsy header (absent or empty) throws `MissingParamError
("token de autenticação")`; `split(" ")` then destructures into
`[bearer, token]` — `bearer !== "Bearer" || !token` throws
`InvalidParamError("token", "formato inválido")` (a missing second part
is `undefined`, falsy like `""`); otherwise the injected JWT provider
verifies the token, whose thrown error — like every other throw — is
funnelled through `handleError`. -/
def authMiddlewareHandle (verify : String → Except AppError MwPayload)
    (authHeader : Option String) : MwResponse :=
  let authVal := authHeader.getD ""
  if authVal = "" then handleError (missingParamError "token de autenticação")
  else
    let parts := jsSplit authVal ' '
    let bearer := parts.headD ""
    let token := (parts[1]?).getD ""
    if bearer ≠ "Bearer" ∨ token = "" then
      handleError (invalidParamError "token" "formato inválido")
    else
      match verify token with
      | .ok payload => okResponse payload
      | .error e => handleError e

/-- The outcome of the external `jsonwebtoken` `verify` call, which the
bundled provider translates. -/
inductive JwtVerifyOutcome where
  | ok (p : MwPayload)
  | jsonWebTokenError (msg : String)
  | otherError (msg : String)

/-- `JsonWebTokenProvider.verify` (from source): a falsy token throws
`InvalidParamError("token", "não fornecido")`; a `jwt.JsonWebTokenError`
(expired or corrupt token) becomes `InvalidParamError("token",
"inválido ou expirado")`; any other failure becomes a `ServerError`. -/
def jsonWebTokenProviderVerify (outcome : JwtVerifyOutcome)
    (token : String) : Except AppError MwPayload :=
  if token = "" then .error (invalidParamError "token" "não fornecido")
  else
    match outcome with
    | .ok p => .ok p
    | .jsonWebTokenError _ =>
      .error (invalidParamError "token" "inválido ou expirado")
    | .otherError m => .error (serverError m)

/-- C3 counterexample: (a) with the repository's own JWT provider an
expired/corrupt token surfaces `"Parâmetro inválido: Token. Inválido ou
expirado."` — which does not contain the claimed `"Token. Expirado ou
inválido."`; (b) a present-but-empty `authorization` header, which lacks
the `"Bearer "` prefix, yields the missing-parameter message instead of
the claimed `"Token. Formato inválido."`. -/
theorem c3_counterexample_middleware :
    (authMiddlewareHandle
        (jsonWebTokenProviderVerify (.jsonWebTokenError "jwt expired"))
        (some "Bearer sometoken")).statusCode = 400 ∧
    (authMiddlewareHandle
        (jsonWebTokenProviderVerify (.jsonWebTokenError "jwt expired"))
        (some "Bearer sometoken")).errorMessage
      = some "Parâmetro inválido: Token. Inválido ou expirado." ∧
    strContains "Parâmetro inválido: Token. Inválido ou expirado."
        "Token. Expirado ou inválido." = false ∧
    (authMiddlewareHandle
        (jsonWebTokenProviderVerify (.ok ⟨"u", "cliente"⟩))
        (some "")).errorMessage
      = some "Parâmetro obrigatório não informado: token de autenticação" ∧
    strContains "Parâmetro obrigatório não informado: token de autenticação"
        "Token. Formato inválido." = false := by
  refine ⟨by decide, by decide, by decide, by decide, by decide⟩

/-- C3 (amended): for every injected verifier, (1) an absent *or empty*
`authorization` header yields a 400 response with the missing-parameter
message naming `"token de autenticação"`; (2) a nonempty header whose
first `" "`-separated part is not `"Bearer"` or whose token part is
absent/empty yields a 400 response with message `"Parâmetro inválido:
Token. Formato inválido."`; (3) when the verifier rejects the extracted
token with an application error — the bundled provider rejects an
expired/corrupt token with `"Parâmetro inválido: Token. Inválido ou
expirado."` (status 400) — the response surfaces that error's status
and message; (4) when verification succeeds the response is 200 and its
body carries the decoded `{userId, userRole}`. -/
theorem c3_middleware_cases (verify : String → Except AppError MwPayload)
    (h : String) :
    (authMiddlewareHandle verify none
      = ⟨400, false,
          some "Parâmetro obrigatório não informado: token de autenticação",
          none⟩) ∧
    (authMiddlewareHandle verify (some "")
      = ⟨400, false,
          some "Parâmetro obrigatório não informado: token de autenticação",
          none⟩) ∧
    (h ≠ "" →
      ((jsSplit h ' ').headD "" ≠ "Bearer" ∨ ((jsSplit h ' ')[1]?).getD "" = "") →
      authMiddlewareHandle verify (some h)
        = ⟨400, false, some "Parâmetro inválido: Token. Formato inválido.",
            none⟩) ∧
    (∀ e, h ≠ "" → (jsSplit h ' ').headD "" = "Bearer" →
      ((jsSplit h ' ')[1]?).getD "" ≠ "" →
      verify (((jsSplit h ' ')[1]?).getD "") = .error e →
      authMiddlewareHandle verify (some h)
        = ⟨e.statusCode, false, some e.message, none⟩) ∧
    (∀ p, h ≠ "" → (jsSplit h ' ').headD "" = "Bearer" →
      ((jsSplit h ' ')[1]?).getD "" ≠ "" →
      verify (((jsSplit h ' ')[1]?).getD "") = .ok p →
      authMiddlewareHandle verify (some h)
        = ⟨200, true, none, some (p.userId, p.role)⟩) := by
  refine ⟨?_, ?_, ?_, ?_, ?_⟩
  · simp [authMiddlewareHandle, handleError, missingParamError]
  · simp [authMiddlewareHandle, handleError, missingParamError]
  · intro hne hbad
    simp only [authMiddlewareHandle, Option.getD_some]
    rw [if_neg hne, if_pos hbad]
    decide
  · intro e hne hbearer htok hver
    simp only [authMiddlewareHandle, Option.getD_some]
    rw [if_neg hne,
      if_neg (by
        intro hor
        rcases hor with hb | ht
        · exact hb hbearer
        · exact htok ht),
      hver]
    rfl
  · intro p hne hbearer htok hver
    simp only [authMiddlewareHandle, Option.getD_some]
    rw [if_neg hne,
      if_neg (by
        intro hor
        rcases hor with hb | ht
        · exact hb hbearer
        · exact htok ht),
      hver]
    rfl

/-- C3 witness: a valid bearer header with a verifier accepting the
token, and a malformed header. -/
theorem c3_middleware_cases_witness :
    authMiddlewareHandle
        (jsonWebTokenProviderVerify (.ok ⟨"u1", "cliente"⟩))
        (some "Bearer tok")
      = ⟨200, true, none, some ("u1", "cliente")⟩ ∧
    authMiddlewareHandle
        (jsonWebTokenProviderVerify (.ok ⟨"u1", "cliente"⟩))
        (some "invalid_token")
      = ⟨400, false, some "Parâmetro inválido: Token. Formato inválido.",
          none⟩ := by
  constructor
  · exact (c3_middleware_cases
      (jsonWebTokenProviderVerify (.ok ⟨"u1", "cliente"⟩))
      "Bearer tok").2.2.2.2 ⟨"u1", "cliente"⟩
      (by decide) (by decide) (by decide) rfl
  · exact (c3_middleware_cases
      (jsonWebTokenProviderVerify (.ok ⟨"u1", "cliente"⟩))
      "invalid_token").2.2.1 (by decide) (by decide)

end BomberQuiz
